import Mathlib

/-!
Verification development for the lg-utils repository.

The development shallowly embeds the two components the claims are about:

* `src/lg_utils/parsers/yaml/utils.py` — the YAML extraction / selection
  pipeline (`parse_multiline_yaml`, `extract_yaml_segments`, `YAMLExtractor`).
* `src/lg_utils/types/__init__.py` — the two-tier retry orchestrator
  (`StructuredAgent._build_retryer`, `_invoke_llm`, `__call__`).

External collaborators are modelled as parameters or as faithful models of
their public semantics:

* `yaml.safe_load` (PyYAML) is a parameter `safe_load : Str → YamlLoad α`
  classifying each input as a mapping, a non-mapping parse, or a parse error;
  concrete witnesses instantiate it with a table that agrees with PyYAML on
  the strings involved.
* `unmark` (the markdown-to-plain-text converter of the source) is a
  parameter `unmark : Str → Str`.
* `tenacity` retry machinery is modelled from its public semantics
  (`Retrying` with `stop_after_attempt`, `retry_if_exception_type`,
  `reraise=True`, and `wait_exponential`).

Strings are modelled as `List Char`; Python whitespace is modelled by its
ASCII part, which covers every input appearing in the claims.
-/

namespace LgUtils

/-- Python strings, modelled as lists of characters. -/
abbrev Str := List Char

/-- ASCII part of Python whitespace (`str.strip`, regex `\s`). -/
def isSpace (c : Char) : Bool :=
  c = ' ' || c = '\t' || c = '\n' || c = '\r' || c = '\x0b' || c = '\x0c'

/-- Python `str.strip()`: remove leading and trailing whitespace. -/
def pyStrip (s : Str) : Str :=
  ((s.dropWhile isSpace).reverse.dropWhile isSpace).reverse

/-! ### Fenced-block scanning

Embeds the regex
`r1 = three backquotes, optional yaml/YAML tag, newline, lazy body, newline,
three backquotes` from `extract_yaml_segments` (utils.py lines 42-57):
`re.finditer` finds the leftmost non-overlapping matches in document order,
and the matched spans are then spliced out of the text.  `scanFenced` does
both in one left-to-right pass, which is equivalent because the matches are
leftmost and non-overlapping. -/

/-- The three-backquote fence marker. -/
def fenceOpen : Str := "```".data

/-- The closing delimiter of a fenced block: a newline and three backquotes. -/
def closeMark : Str := "\n```".data

/-- After the opening marker: the optional `yaml`/`YAML` tag followed by a
newline, or a bare newline.  Returns the body start (the rest of the text). -/
def fenceTag (cs : Str) : Option Str :=
  if ("yaml\n".data).isPrefixOf cs then some (cs.drop 5)
  else if ("YAML\n".data).isPrefixOf cs then some (cs.drop 5)
  else if ("\n".data).isPrefixOf cs then some (cs.drop 1)
  else none

/-- Lazy body match: the content up to the first occurrence of `closeMark`,
and the text after the full `closeMark`.  `none` when no close exists. -/
def findClose : Str → Option (Str × Str)
  | [] => none
  | c :: cs =>
    if closeMark.isPrefixOf (c :: cs) then some ([], cs.drop 3)
    else
      match findClose cs with
      | some (content, rest) => some (c :: content, rest)
      | none => none

/-- Try to match one full fenced block at the start of `cs`; on success
returns the captured group (the body) and the text after the match. -/
def tryFence (cs : Str) : Option (Str × Str) :=
  if fenceOpen.isPrefixOf cs then
    match fenceTag (cs.drop 3) with
    | some body => findClose body
    | none => none
  else none

/-- One left-to-right scan collecting all fenced-block bodies (in document
order) and the text with the matched spans removed.  The fuel argument is a
termination bound only: every step consumes at least one character, so
`fuel = cs.length` (as used by `scanFenced`) never runs out. -/
def scanFencedAux : Nat → Str → List Str × Str
  | _, [] => ([], [])
  | 0, c :: cs => ([], c :: cs)
  | fuel + 1, c :: cs =>
    match tryFence (c :: cs) with
    | some (content, rest) =>
      let p := scanFencedAux fuel rest
      (content :: p.1, p.2)
    | none =>
      let p := scanFencedAux fuel cs
      (p.1, c :: p.2)

/-- Fenced-block bodies in document order, plus the remaining text
(utils.py lines 47-57). -/
def scanFenced (text : Str) : List Str × Str :=
  scanFencedAux text.length text

/-! ### Standalone-block splitting

Embeds `re.split` on the separator `newline, \s*, newline`
(utils.py line 60).  The greedy `\s*` with backtracking makes the separator
run from a newline through the last newline of the maximal whitespace run
that follows it. -/

/-- Index of the last newline in a character list, if any. -/
def lastNewlinePos : Str → Option Nat
  | [] => none
  | c :: cs =>
    match lastNewlinePos cs with
    | some i => some (i + 1)
    | none => if c = '\n' then some 0 else none

/-- Try to match the blank-line separator at the start of the text; on
success returns the text after the separator. -/
def trySep : Str → Option Str
  | [] => none
  | c :: cs =>
    if c = '\n' then
      match lastNewlinePos (cs.takeWhile isSpace) with
      | some i => some (cs.drop (i + 1))
      | none => none
    else none

/-- Split on blank-line separators, keeping the pieces in order.  The fuel
argument is a termination bound only: every step consumes at least one
character, so `fuel = cs.length` (as used by `splitBlank`) never runs out. -/
def splitBlankAux : Nat → Str → List Str
  | _, [] => [[]]
  | 0, c :: cs => [c :: cs]
  | fuel + 1, c :: cs =>
    match trySep (c :: cs) with
    | some rest => [] :: splitBlankAux fuel rest
    | none =>
      match splitBlankAux fuel cs with
      | [] => [[c]]
      | p :: ps => (c :: p) :: ps

/-- `re.split` of the blank-line separator over the text. -/
def splitBlank (s : Str) : List Str := splitBlankAux s.length s

/-! ### Potential segments (utils.py lines 44-65) -/

/-- Fenced-block candidates: block bodies, stripped, kept when non-empty
(utils.py lines 47-51). -/
def fencedSegs (text : Str) : List Str :=
  ((scanFenced text).1.map pyStrip).filter (fun s => !s.isEmpty)

/-- Standalone candidates: blank-line-delimited blocks of the fence-stripped
text, stripped, kept when non-empty and containing a colon
(utils.py lines 59-65). -/
def standaloneSegs (text : Str) : List Str :=
  ((splitBlank (scanFenced text).2).map pyStrip).filter
    (fun b => !b.isEmpty && b.contains ':')

/-- `potential_segments`: fenced candidates first, then standalone
candidates (utils.py lines 44-65). -/
def potentialSegments (text : Str) : List Str :=
  fencedSegs text ++ standaloneSegs text

/-! ### YAML loading (parse_multiline_yaml, utils.py lines 11-34) -/

/-- Outcome of `yaml.safe_load` on one string: a mapping (an ordered
association list), a successful parse that is not a mapping (scalar, list,
or null), or a parse failure (ScannerError/ParserError or any other
exception). -/
inductive YamlLoad (α : Type) where
  | dict (d : List (Str × α))
  | nonDict
  | loadError
deriving DecidableEq

/-- `parse_multiline_yaml` (utils.py lines 11-34): returns the parsed dict,
or `none` when the parse fails or the result is not a dict (both cases are
logged and swallowed in the source). -/
def parse_multiline_yaml {α : Type} (safe_load : Str → YamlLoad α) (s : Str) :
    Option (List (Str × α)) :=
  match safe_load s with
  | .dict d => some d
  | .nonDict => none
  | .loadError => none

/-- `extract_yaml_segments` (utils.py lines 36-80): collect the potential
segments, optionally unmark each, parse each, and keep the successful dict
parses in order (no deduplication). -/
def extract_yaml_segments {α : Type} (safe_load : Str → YamlLoad α)
    (unmark : Str → Str) (text : Str) (remove_markdown : Bool) :
    List (List (Str × α)) :=
  (potentialSegments text).filterMap (fun segment =>
    let processed := if remove_markdown then unmark segment else segment
    parse_multiline_yaml safe_load processed)

/-! ### YAMLExtractor (utils.py lines 107-166) -/

/-- The `ValueError`s raised by the extraction pipeline, identified by their
message content:
* `badStrategy`: `Strategy must be first or last` (line 119);
* `missingKeys seg missing`: `YAML segment {seg} is missing mandatory keys:
  {missing}` — `seg` is the 1-based index `i+1` printed by line 144;
* `noValidYaml required`: `No valid YAML found matching requirements.
  Required keys: {required}` (lines 158-161). -/
inductive ExtractError where
  | badStrategy
  | missingKeys (segment : Nat) (missing : List Str)
  | noValidYaml (required : List Str)
deriving DecidableEq

/-- The configuration state of a constructed `YAMLExtractor`
(utils.py lines 109-120). -/
structure YAMLExtractor where
  mandatory_keys : List Str
  strategy : Str
deriving DecidableEq

/-- `YAMLExtractor.__init__` (utils.py lines 109-120): `mandatory_keys or []`
and the strategy validation. -/
def YAMLExtractor.init (mandatory_keys : Option (List Str)) (strategy : Str) :
    Except ExtractError YAMLExtractor :=
  if strategy = "first".data ∨ strategy = "last".data then
    .ok { mandatory_keys := mandatory_keys.getD [], strategy := strategy }
  else
    .error .badStrategy

/-- Python `key in candidate` over the candidate dict keys. -/
def hasKey {α : Type} (candidate : List (Str × α)) (key : Str) : Bool :=
  candidate.any (fun p => p.1 = key)

/-- `missing_keys = [key for key in self.mandatory_keys if key not in
candidate]` (utils.py line 142). -/
def missingKeysOf {α : Type} (mandatory_keys : List Str)
    (candidate : List (Str × α)) : List Str :=
  mandatory_keys.filter (fun key => !hasKey candidate key)

/-- The strict-mode loop of `extract_from_text` (utils.py lines 141-144):
enumerate the candidates from `i0` and raise at the first candidate with
missing mandatory keys, naming the 1-based segment index and the missing
keys. -/
def strictCheck {α : Type} (mandatory_keys : List Str) :
    Nat → List (List (Str × α)) → Except ExtractError Unit
  | _, [] => .ok ()
  | i, c :: cs =>
    let missing := missingKeysOf mandatory_keys c
    if missing.isEmpty then strictCheck mandatory_keys (i + 1) cs
    else .error (.missingKeys (i + 1) missing)

/-- `YAMLExtractor.extract_from_text` (utils.py lines 122-146).  Note that
the source calls `extract_yaml_segments(text)` with `remove_markdown` left
at its default `False`. -/
def YAMLExtractor.extract_from_text {α : Type} (e : YAMLExtractor)
    (safe_load : Str → YamlLoad α) (unmark : Str → Str) (text : Str)
    (exclude_non_mandatory : Bool) :
    Except ExtractError (List (List (Str × α))) :=
  let candidates := extract_yaml_segments safe_load unmark text false
  if e.mandatory_keys.isEmpty then .ok candidates
  else if exclude_non_mandatory then
    .ok (candidates.filter
      (fun candidate => e.mandatory_keys.all (fun key => hasKey candidate key)))
  else
    match strictCheck e.mandatory_keys 0 candidates with
    | .ok _ => .ok candidates
    | .error err => .error err

/-- `YAMLExtractor.process` (utils.py lines 148-163): strip the text,
extract and filter, raise on zero candidates, otherwise pick
`candidates[0]` for strategy `first` and `candidates[-1]` otherwise. -/
def YAMLExtractor.process {α : Type} (e : YAMLExtractor)
    (safe_load : Str → YamlLoad α) (unmark : Str → Str) (text : Str)
    (exclude_non_mandatory : Bool) :
    Except ExtractError (List (Str × α)) :=
  match e.extract_from_text safe_load unmark (pyStrip text) exclude_non_mandatory with
  | .error err => .error err
  | .ok [] => .error (.noValidYaml e.mandatory_keys)
  | .ok (c :: cs) =>
    .ok (if e.strategy = "first".data then c
         else (c :: cs).getLast (List.cons_ne_nil c cs))

/-! ### The two-tier retry orchestrator
(`StructuredAgent`, types/__init__.py lines 13-109)

The exception universe models the Python exception classes relevant to the
retry classification; each value stands for an exception instance identified
with the listed class it instantiates (`isinstance` semantics).  All of them
are `Exception` instances. -/

/-- Exception classes: the four whitelisted logic errors of the
post-processing retryer, plus representative non-whitelisted classes. -/
inductive PyExc where
  | valueError
  | keyError
  | typeError
  | runtimeError
  | connectionError
  | otherExc (tag : Nat)
deriving DecidableEq

/-- `retry_if_exception_type((ValueError, KeyError, TypeError,
RuntimeError))` — the whitelist of the post-processing retryer
(types/__init__.py lines 56-60). -/
def isLogicError : PyExc → Bool
  | .valueError => true
  | .keyError => true
  | .typeError => true
  | .runtimeError => true
  | _ => false

/-- `retry_if_exception_type(Exception)` — the LLM retryer predicate
(types/__init__.py line 55): every modelled exception is an `Exception`. -/
def isException : PyExc → Bool := fun _ => true

/-- The attempt loop of a tenacity `Retrying(stop=stop_after_attempt(·),
retry=retry_if_exception_type(·), reraise=True)` used as
`for attempt in retryer: with attempt: ...` (types/__init__.py lines 62-69,
79-84, 101-106).  `remaining` is the number of further attempts allowed
after the current one.  The operation threads a state `σ` (used below to
count LLM calls); tenacity semantics: on success return; on a
non-retryable exception re-raise it immediately; on a retryable exception
re-raise it when the budget is spent, otherwise wait and run the next
attempt. -/
def retryAux {σ ρ : Type} (retryable : PyExc → Bool)
    (op : σ → Except PyExc ρ × σ) : Nat → σ → Except PyExc ρ × σ
  | remaining, s =>
    match op s with
    | (.ok r, s1) => (.ok r, s1)
    | (.error e, s1) =>
      if retryable e = false then (.error e, s1)
      else
        match remaining with
        | 0 => (.error e, s1)
        | r + 1 => retryAux retryable op r s1

/-- A tenacity `Retrying` with `stop_after_attempt(maxAttempts)`: the first
attempt runs unconditionally and the stop condition
`attempt_number >= maxAttempts` leaves `maxAttempts - 1` further attempts. -/
def retryRun {σ ρ : Type} (maxAttempts : Nat) (retryable : PyExc → Bool)
    (op : σ → Except PyExc ρ × σ) (s : σ) : Except PyExc ρ × σ :=
  retryAux retryable op (maxAttempts - 1) s

/-- One retry layer configuration (types/__init__.py line 51). -/
structure RetryConfigs where
  max_attempts : Nat
  wait_base : Rat
  wait_min : Rat
  wait_max : Rat
deriving DecidableEq

/-- `default_retry`: max_attempts 3, wait_base 0.2, wait_min 0,
wait_max 30 (types/__init__.py line 51). -/
def default_retry : RetryConfigs :=
  { max_attempts := 3, wait_base := 1 / 5, wait_min := 0, wait_max := 30 }

/-- Python `max` on two rationals. -/
def pyMax (a b : Rat) : Rat := if a ≤ b then b else a

/-- Python `min` on two rationals. -/
def pyMin (a b : Rat) : Rat := if a ≤ b then a else b

/-- Model of `tenacity.wait_exponential(multiplier, max, exp_base, min)`
(external dependency, modelled from its public semantics): the delay
computed after a failed attempt numbered `attempt_number` is
`multiplier * exp_base ^ (attempt_number - 1)` clamped into
`[max 0 min, max]`. -/
def wait_exponential (multiplier exp_base mn mx : Rat)
    (attempt_number : Nat) : Rat :=
  pyMax (pyMax 0 mn) (pyMin (multiplier * exp_base ^ (attempt_number - 1)) mx)

/-- The wait schedule built by `StructuredAgent._build_retryer`
(types/__init__.py line 65): `wait_exponential(exp_base=configs[wait_base],
min=configs[wait_min], max=configs[wait_max])` — the configured base delay
is passed as the exponent base and the multiplier keeps its default `1`. -/
def retryer_wait (configs : RetryConfigs) (attempt_number : Nat) : Rat :=
  wait_exponential 1 configs.wait_base configs.wait_min configs.wait_max
    attempt_number

/-- Modelled from the spec: the intended backoff schedule
`wait(n) = clamp(base * 2 ^ (n - 1), min, max)` of spec section 4.4. -/
def spec_wait (configs : RetryConfigs) (n : Nat) : Rat :=
  pyMax configs.wait_min
    (pyMin (configs.wait_base * 2 ^ (n - 1)) configs.wait_max)

/-- The state of a constructed `StructuredAgent` relevant to the retry
claims (types/__init__.py lines 13-69).  `llm n` is the outcome of the
`n`-th call of `self.llm.invoke` (the model invocation), counted globally
across the whole external call; `post_processor` is the user
post-processing hook.  Template rendering (steps 1-2 of `__call__`) is not
modelled: the claims concern step 3. -/
structure StructuredAgent (γ ρ : Type) where
  retry_configs : RetryConfigs
  pp_retry_configs : RetryConfigs
  llm : Nat → Except PyExc γ
  post_processor : γ → Except PyExc ρ

/-- `StructuredAgent._invoke_llm` (types/__init__.py lines 79-84): run the
model invocation under the LLM retryer (`retry_configs`, retry on any
`Exception`).  The `Nat` state counts model-invocation calls. -/
def StructuredAgent.invoke_llm {γ ρ : Type} (a : StructuredAgent γ ρ)
    (s : Nat) : Except PyExc γ × Nat :=
  retryRun a.retry_configs.max_attempts isException
    (fun n => (a.llm n, n + 1)) s

/-- The body of one post-processing attempt (types/__init__.py lines
103-106): invoke the LLM (itself retried), then post-process; an exception
raised by either is the outcome of the attempt. -/
def StructuredAgent.innerOp {γ ρ : Type} (a : StructuredAgent γ ρ)
    (s : Nat) : Except PyExc ρ × Nat :=
  match a.invoke_llm s with
  | (.ok content, s1) => (a.post_processor content, s1)
  | (.error e, s1) => (.error e, s1)

/-- `StructuredAgent.__call__`, step 3 (types/__init__.py lines 101-109):
the post-processing retryer (`pp_retry_configs`, retry on the logic-error
whitelist) around `innerOp`, starting with zero model calls made.  The
final `except` clause (lines 107-109) logs and re-raises the same exception
object, so the error value is returned unchanged. -/
def StructuredAgent.call {γ ρ : Type} (a : StructuredAgent γ ρ) :
    Except PyExc ρ × Nat :=
  retryRun a.pp_retry_configs.max_attempts isLogicError a.innerOp 0

/-! ### Concrete instances for witnesses and counterexamples

`demoLoad` is a table model of `yaml.safe_load` that agrees with PyYAML on
every string it is applied to below: simple `key: value` lines parse to
one-entry mappings, the empty flow mapping parses to the empty dict, a
flow list parses to a non-mapping, and anything else is treated as a parse
failure (the claims below never depend on the last case). -/

/-- Identity markdown converter for scenarios that do not normalize. -/
def idUnmark : Str → Str := fun s => s

/-- Table model of `yaml.safe_load` for the concrete scenarios. -/
def demoLoad : Str → YamlLoad Str := fun s =>
  if s = "k: v".data then .dict [("k".data, "v".data)]
  else if s = "title: A".data then .dict [("title".data, "A".data)]
  else if s = "foo: 1".data then .dict [("foo".data, "1".data)]
  else if s = "\x7b\x7d".data then .dict []
  else if s = "- a".data then .nonDict
  else .loadError

/-- A text with a fenced block followed by a standalone block of equal
content. -/
def C4text : Str := "```yaml\nk: v\n```\n\nk: v".data

/-- A text with two fenced blocks: one with a `title` key, one without. -/
def C3text : Str := "```\ntitle: A\n```\n\n```\nfoo: 1\n```".data

/-- A fenced block holding the empty flow mapping. -/
def C6text : Str := "```\n\x7b\x7d\n```".data

/-- The candidate parsed from `k: v`. -/
def dkv : List (Str × Str) := [("k".data, "v".data)]

/-- An extractor with no mandatory keys and strategy `first`. -/
def eFirst : YAMLExtractor := { mandatory_keys := [], strategy := "first".data }

/-- An extractor with no mandatory keys and strategy `last`. -/
def eLast : YAMLExtractor := { mandatory_keys := [], strategy := "last".data }

/-- An extractor requiring the key `title`, strategy `last`. -/
def eC3 : YAMLExtractor :=
  { mandatory_keys := ["title".data], strategy := "last".data }

/-- An agent (default retry configuration) whose model invocation always
raises a `ConnectionError` (not in the inner whitelist). -/
def aConn : StructuredAgent Unit Unit :=
  { retry_configs := default_retry, pp_retry_configs := default_retry,
    llm := fun _ => .error .connectionError,
    post_processor := fun _ => .ok () }

/-- An agent (default retry configuration) whose model invocation always
raises a `ValueError` (in the inner whitelist). -/
def aVal : StructuredAgent Unit Unit :=
  { retry_configs := default_retry, pp_retry_configs := default_retry,
    llm := fun _ => .error .valueError,
    post_processor := fun _ => .ok () }

/-! ## Helper lemmas -/

/-- Unfolding step of the retry loop when the current attempt fails. -/
theorem retryAux_error_step (σ ρ : Type) (retryable : PyExc → Bool)
    (op : σ → Except PyExc ρ × σ) (s : σ) (e : PyExc) (s1 : σ)
    (hop : op s = (.error e, s1)) (remaining : Nat) :
    retryAux retryable op remaining s
      = if retryable e = false then (.error e, s1)
        else
          match remaining with
          | 0 => (.error e, s1)
          | r + 1 => retryAux retryable op r s1 := by
  rw [retryAux, hop]

/-- A retry loop over an operation that fails at every attempt with a
retryable error runs `remaining + 1` attempts and re-raises the last
error. -/
theorem retryAux_all_fail (γ : Type) (retryable : PyExc → Bool)
    (op : Nat → Except PyExc γ × Nat) (errF : Nat → PyExc)
    (hop : ∀ n, op n = (.error (errF n), n + 1))
    (hr : ∀ n, retryable (errF n) = true) :
    ∀ remaining s, retryAux retryable op remaining s
      = (.error (errF (s + remaining)), s + remaining + 1) := by
  intro remaining
  induction remaining with
  | zero =>
    intro s
    rw [retryAux_error_step Nat γ retryable op s (errF s) (s + 1) (hop s) 0]
    simp [hr s]
  | succ r ih =>
    intro s
    rw [retryAux_error_step Nat γ retryable op s (errF s) (s + 1) (hop s) (r + 1)]
    simp only [hr s, if_neg]
    rw [ih (s + 1)]
    have h1 : s + 1 + r = s + (r + 1) := by omega
    rw [h1]
    simp

/-- With a model invocation that raises at every call, `_invoke_llm` makes
exactly `max_attempts` calls and re-raises the last error. -/
theorem invoke_llm_all_fail (γ ρ : Type) (a : StructuredAgent γ ρ)
    (errF : Nat → PyExc) (hllm : ∀ n, a.llm n = .error (errF n)) (s : Nat) :
    a.invoke_llm s
      = (.error (errF (s + (a.retry_configs.max_attempts - 1))),
         s + (a.retry_configs.max_attempts - 1) + 1) := by
  unfold StructuredAgent.invoke_llm retryRun
  exact retryAux_all_fail γ isException (fun n => (a.llm n, n + 1)) errF
    (fun n => by simp only []; rw [hllm n]) (fun n => rfl)
    (a.retry_configs.max_attempts - 1) s

/-! ## Claims -/

/-- C1 (amended): if the model invocation raises on every attempt and the
raised errors are outside the inner whitelist (not
ValueError/KeyError/TypeError/RuntimeError instances), then over one
external call the total number of model-invocation calls equals exactly the
outer layer max_attempts, and the error finally raised to the caller is the
last error raised by the model invocation, re-raised unchanged and never
wrapped.  (When the always-raised error is inner-whitelisted, the inner
layer re-invokes the model, multiplying the call count — see the
counterexample.) -/
theorem C1_retry_exhaustion (γ ρ : Type) (a : StructuredAgent γ ρ)
    (errF : Nat → PyExc)
    (hllm : ∀ n, a.llm n = .error (errF n))
    (hnl : ∀ n, isLogicError (errF n) = false)
    (hge : 1 ≤ a.retry_configs.max_attempts) :
    a.call = (.error (errF (a.retry_configs.max_attempts - 1)),
              a.retry_configs.max_attempts) := by
  have hM : a.retry_configs.max_attempts - 1 + 1
      = a.retry_configs.max_attempts := by omega
  have hinner : a.innerOp 0
      = (.error (errF (a.retry_configs.max_attempts - 1)),
         a.retry_configs.max_attempts) := by
    unfold StructuredAgent.innerOp
    rw [invoke_llm_all_fail γ ρ a errF hllm 0]
    simp only [Nat.zero_add, hM]
  unfold StructuredAgent.call retryRun
  rw [retryAux_error_step Nat ρ isLogicError a.innerOp 0
    (errF (a.retry_configs.max_attempts - 1)) a.retry_configs.max_attempts
    hinner (a.pp_retry_configs.max_attempts - 1)]
  simp [hnl]

/-- C1 witness: an agent with default configuration whose model invocation
always raises a ConnectionError makes exactly 3 model calls and re-raises
that error. -/
theorem C1_witness : aConn.call = (.error .connectionError, 3) :=
  C1_retry_exhaustion Unit Unit aConn (fun _ => .connectionError)
    (fun _ => rfl) (fun _ => rfl) (by decide)

/-- C1 counterexample: with default configuration (both layers
max_attempts = 3) and a model invocation that always raises a ValueError —
which is in the inner whitelist — one external call makes 9
model-invocation calls, not 3 as the claim states. -/
theorem C1_counterexample :
    aVal.call = (.error .valueError, 9)
    ∧ aVal.retry_configs.max_attempts = 3
    ∧ (9 : Nat) ≠ 3 :=
  ⟨rfl, rfl, by decide⟩

/-- C2: the wait schedule actually built by `_build_retryer` passes the
configured base delay (`wait_base = 0.2`) as the tenacity `exp_base`
argument, leaving the multiplier at 1, so the delay after attempt `n` is
`clamp(0.2 ^ (n - 1), 0, 30)` — 1, 0.2, 0.04, … seconds — whereas the
claim (and the spec) state `clamp(0.2 * 2 ^ (n - 1), 0, 30)` — 0.2, 0.4,
0.8, … seconds.  The two differ already at `n = 1`.  The listed
`max_attempts = 3` default is as claimed. -/
theorem C2_wait_divergence :
    retryer_wait default_retry 1 = 1
    ∧ retryer_wait default_retry 2 = 1 / 5
    ∧ retryer_wait default_retry 3 = 1 / 25
    ∧ spec_wait default_retry 1 = 1 / 5
    ∧ spec_wait default_retry 2 = 2 / 5
    ∧ spec_wait default_retry 3 = 4 / 5
    ∧ retryer_wait default_retry 1 ≠ spec_wait default_retry 1
    ∧ default_retry.max_attempts = 3 := by
  norm_num [retryer_wait, spec_wait, wait_exponential, default_retry,
    pyMax, pyMin]

/-- C8: the inner retry layer retries an attempt iff the raised exception
is in the fixed whitelist (ValueError, KeyError, TypeError, RuntimeError):
a non-whitelisted exception is re-raised immediately whatever budget
remains, a whitelisted one triggers a fresh attempt while budget remains
and is re-raised once the budget is spent; and the whitelist is exactly
those four classes. -/
theorem C8_inner_whitelist (γ ρ : Type) (a : StructuredAgent γ ρ)
    (s : Nat) (e : PyExc) (s1 : Nat)
    (hop : a.innerOp s = (.error e, s1)) :
    (isLogicError e = false →
      ∀ remaining, retryAux isLogicError a.innerOp remaining s
        = (.error e, s1))
    ∧ (isLogicError e = true → ∀ r,
        retryAux isLogicError a.innerOp (r + 1) s
          = retryAux isLogicError a.innerOp r s1)
    ∧ (isLogicError e = true →
        retryAux isLogicError a.innerOp 0 s = (.error e, s1))
    ∧ (∀ x, isLogicError x = true ↔
        (x = .valueError ∨ x = .keyError ∨ x = .typeError
          ∨ x = .runtimeError)) := by
  refine ⟨?_, ?_, ?_, ?_⟩
  · intro hf remaining
    rw [retryAux_error_step Nat ρ isLogicError a.innerOp s e s1 hop remaining]
    simp [hf]
  · intro ht r
    rw [retryAux_error_step Nat ρ isLogicError a.innerOp s e s1 hop (r + 1)]
    simp [ht]
  · intro ht
    rw [retryAux_error_step Nat ρ isLogicError a.innerOp s e s1 hop 0]
    simp [ht]
  · intro x
    cases x <;> simp [isLogicError]

/-- C8 witness: for the default-configuration agent whose model invocation
always raises a ConnectionError, the first inner attempt fails with that
non-whitelisted error after 3 model calls, and the inner layer re-raises it
immediately for every remaining budget. -/
theorem C8_witness :
    (isLogicError .connectionError = false →
      ∀ remaining, retryAux isLogicError aConn.innerOp remaining 0
        = (.error .connectionError, 3))
    ∧ (isLogicError .connectionError = true → ∀ r,
        retryAux isLogicError aConn.innerOp (r + 1) 0
          = retryAux isLogicError aConn.innerOp r 3)
    ∧ (isLogicError .connectionError = true →
        retryAux isLogicError aConn.innerOp 0 0 = (.error .connectionError, 3))
    ∧ (∀ x, isLogicError x = true ↔
        (x = .valueError ∨ x = .keyError ∨ x = .typeError
          ∨ x = .runtimeError)) :=
  C8_inner_whitelist Unit Unit aConn 0 .connectionError 3 rfl

/-- C7: with `remove_markdown = true`, every raw candidate substring
(fenced and standalone alike) is passed through the markdown converter
before the YAML parse is attempted; with `remove_markdown = false` (the
default, and the value `extract_from_text` always uses) the raw substring
is parsed directly. -/
theorem C7_normalize_flag (α : Type) (safe_load : Str → YamlLoad α)
    (unmark : Str → Str) (text : Str) :
    extract_yaml_segments safe_load unmark text true
      = (potentialSegments text).filterMap
          (fun seg => parse_multiline_yaml safe_load (unmark seg))
    ∧ extract_yaml_segments safe_load unmark text false
      = (potentialSegments text).filterMap
          (fun seg => parse_multiline_yaml safe_load seg) :=
  ⟨rfl, rfl⟩

/-- C4: extraction parses the potential segments in order with all
fenced-block candidates before all standalone-block candidates and without
deduplication; on a text with a fenced block followed by a standalone block
of equal content this yields two identical candidates, the fenced-derived
one at index 0 and the standalone-derived one at index 1, so
strategy=first selects the fenced candidate and strategy=last the
standalone one. -/
theorem C4_ordering :
    (∀ (α : Type) (safe_load : Str → YamlLoad α) (unmark : Str → Str)
        (text : Str) (rm : Bool),
      extract_yaml_segments safe_load unmark text rm
        = (fencedSegs text).filterMap
            (fun seg => parse_multiline_yaml safe_load
              (if rm then unmark seg else seg))
          ++ (standaloneSegs text).filterMap
            (fun seg => parse_multiline_yaml safe_load
              (if rm then unmark seg else seg)))
    ∧ fencedSegs C4text = ["k: v".data]
    ∧ standaloneSegs C4text = ["k: v".data]
    ∧ extract_yaml_segments demoLoad idUnmark C4text false = [dkv, dkv]
    ∧ eFirst.process demoLoad idUnmark C4text false = .ok dkv
    ∧ eLast.process demoLoad idUnmark C4text false = .ok dkv := by
  refine ⟨?_, by decide, by decide, by decide, rfl, rfl⟩
  intro α safe_load unmark text rm
  simp only [extract_yaml_segments, potentialSegments, List.filterMap_append]

/-- C6 counterexample: extraction can return an empty mapping, so not
every returned candidate has at least one key: the text holding a fenced
block whose body is the empty flow mapping (which PyYAML parses to the
empty dict) yields the candidate list `[{}]`. -/
theorem C6_counterexample :
    ¬ (∀ (α : Type) (safe_load : Str → YamlLoad α) (unmark : Str → Str)
        (text : Str) (rm : Bool),
        ∀ d ∈ extract_yaml_segments safe_load unmark text rm, d ≠ []) := by
  intro h
  exact h Str demoLoad idUnmark C6text false [] (by decide) rfl

/-- C6 (amended): every candidate returned by extraction is a mapping —
the dict produced by the loader for one of the potential segments, possibly
empty — and a substring whose parse succeeds but yields a scalar or list
(a non-mapping) is discarded without raising an error, exactly like a
failed parse. -/
theorem C6_candidates_are_mappings (α : Type) (safe_load : Str → YamlLoad α)
    (unmark : Str → Str) (text : Str) (rm : Bool) :
    (∀ d, d ∈ extract_yaml_segments safe_load unmark text rm →
      ∃ seg, seg ∈ potentialSegments text
        ∧ safe_load (if rm then unmark seg else seg) = .dict d)
    ∧ (∀ s, safe_load s = .nonDict ∨ safe_load s = .loadError →
        parse_multiline_yaml safe_load s = none) := by
  constructor
  · intro d hd
    obtain ⟨seg, hseg, hparse⟩ := List.mem_filterMap.mp hd
    have hp : parse_multiline_yaml safe_load (if rm then unmark seg else seg)
        = some d := hparse
    refine ⟨seg, hseg, ?_⟩
    unfold parse_multiline_yaml at hp
    cases hsl : safe_load (if rm then unmark seg else seg) <;>
      rw [hsl] at hp <;> simp_all
  · intro s hs
    unfold parse_multiline_yaml
    rcases hs with h | h <;> rw [h]

/-- C6 witness: on the fenced empty-flow-mapping text the empty candidate
is the loader output of a potential segment, and a list-valued parse is
discarded (returns `none`) rather than raising. -/
theorem C6_witness :
    (∃ seg, seg ∈ potentialSegments C6text
       ∧ demoLoad seg = .dict ([] : List (Str × Str)))
    ∧ parse_multiline_yaml demoLoad "- a".data = none :=
  ⟨(C6_candidates_are_mappings Str demoLoad idUnmark C6text false).1 []
      (by decide),
   (C6_candidates_are_mappings Str demoLoad idUnmark C6text false).2
      "- a".data (Or.inl rfl)⟩

/-- C9: in filter mode (`exclude_non_mandatory = true`) selection returns,
without raising, exactly the candidates whose key set is a superset of
`mandatory_keys`, in their original relative order (a `List.filter` of the
extracted list); with empty `mandatory_keys` the candidate list is
returned unchanged. -/
theorem C9_filter_mode (α : Type) (e : YAMLExtractor)
    (safe_load : Str → YamlLoad α) (unmark : Str → Str) (text : Str) :
    e.extract_from_text safe_load unmark text true
      = .ok ((extract_yaml_segments safe_load unmark text false).filter
          (fun candidate =>
            e.mandatory_keys.all (fun key => hasKey candidate key)))
    ∧ (e.mandatory_keys = [] →
        e.extract_from_text safe_load unmark text true
          = .ok (extract_yaml_segments safe_load unmark text false)) := by
  constructor
  · unfold YAMLExtractor.extract_from_text
    by_cases h : e.mandatory_keys = []
    · simp [h, List.filter_true]
    · simp [h, List.isEmpty_iff]
  · intro h
    unfold YAMLExtractor.extract_from_text
    simp [h]

/-- C9 witness: filter mode keeps only the candidate containing `title`
(dropping the other without raising), and with no mandatory keys it
returns the extracted candidates unchanged. -/
theorem C9_witness :
    eC3.extract_from_text demoLoad idUnmark C3text true
      = .ok [[("title".data, "A".data)]]
    ∧ eLast.extract_from_text demoLoad idUnmark C4text true
      = .ok (extract_yaml_segments demoLoad idUnmark C4text false) :=
  ⟨((C9_filter_mode Str eC3 demoLoad idUnmark C3text).1).trans rfl,
   (C9_filter_mode Str eLast demoLoad idUnmark C4text).2 rfl⟩

/-- C10: constructing a `YAMLExtractor` with a strategy other than
`first` or `last` raises a ValueError, so every constructed instance has
strategy `first` or `last`. -/
theorem C10_strategy_validation (mk : Option (List Str)) (s : Str) :
    (∀ e, YAMLExtractor.init mk s = .ok e →
        e.strategy = "first".data ∨ e.strategy = "last".data)
    ∧ (s ≠ "first".data → s ≠ "last".data →
        YAMLExtractor.init mk s = .error .badStrategy) := by
  constructor
  · intro e he
    unfold YAMLExtractor.init at he
    split at he
    · next hcond =>
      cases he
      exact hcond
    · cases he
  · intro h1 h2
    unfold YAMLExtractor.init
    rw [if_neg]
    rintro (h | h) <;> contradiction

/-- C10 witness: a strategy value that is neither `first` nor `last` is
rejected at construction time. -/
theorem C10_witness :
    YAMLExtractor.init none "middle".data = .error .badStrategy :=
  (C10_strategy_validation none "middle".data).2 (by decide) (by decide)

/-- C5: whenever the surviving candidate list is empty, `process` raises
the no-valid-YAML error (naming the required keys), never returning an
empty or default result; when candidates survive it returns the first
element for strategy `first` and the last element otherwise. -/
theorem C5_zero_candidates (α : Type) (e : YAMLExtractor)
    (safe_load : Str → YamlLoad α) (unmark : Str → Str) (text : Str)
    (ex : Bool) :
    (e.extract_from_text safe_load unmark (pyStrip text) ex = .ok [] →
      e.process safe_load unmark text ex
        = .error (.noValidYaml e.mandatory_keys))
    ∧ (∀ c cs,
        e.extract_from_text safe_load unmark (pyStrip text) ex = .ok (c :: cs) →
        e.process safe_load unmark text ex
          = .ok (if e.strategy = "first".data then c
                 else (c :: cs).getLast (List.cons_ne_nil c cs))) := by
  constructor
  · intro h
    unfold YAMLExtractor.process
    rw [h]
  · intro c cs h
    unfold YAMLExtractor.process
    rw [h]

/-- C5 witness: on text with no parseable structured content and with
empty `mandatory_keys`, `process` still raises the no-valid-YAML error. -/
theorem C5_witness :
    eLast.process demoLoad idUnmark "".data false
      = .error (.noValidYaml []) :=
  (C5_zero_candidates Str eLast demoLoad idUnmark "".data false).1 rfl

/-- The strict-mode loop raises at the first candidate (if any) with
missing mandatory keys, naming its 1-based index (counted from `i0`) and
its missing keys. -/
theorem strictCheck_finds (α : Type) (mks : List Str)
    (l : List (List (Str × α))) :
    ∀ i0 : Nat, (∃ c ∈ l, missingKeysOf mks c ≠ []) →
      ∃ j, ∃ hj : j < l.length,
        strictCheck mks i0 l
          = .error (.missingKeys (i0 + j + 1) (missingKeysOf mks l[j]))
        ∧ missingKeysOf mks l[j] ≠ [] := by
  induction l with
  | nil =>
    intro i0 h
    obtain ⟨c, hc, _⟩ := h
    exact absurd hc (List.not_mem_nil c)
  | cons c cs ih =>
    intro i0 h
    by_cases hc : missingKeysOf mks c = []
    · have hcs : ∃ c0 ∈ cs, missingKeysOf mks c0 ≠ [] := by
        obtain ⟨c0, hmem, hne⟩ := h
        rcases List.mem_cons.mp hmem with heq | hmem2
        · rw [heq] at hne
          exact absurd hc hne
        · exact ⟨c0, hmem2, hne⟩
      obtain ⟨j, hj, heq, hne⟩ := ih (i0 + 1) hcs
      refine ⟨j + 1, Nat.succ_lt_succ hj, ?_, ?_⟩
      · have hstep : strictCheck mks i0 (c :: cs) = strictCheck mks (i0 + 1) cs := by
          simp only [strictCheck]
          rw [if_pos (by simp [hc])]
        rw [hstep, heq]
        have harith : i0 + 1 + j + 1 = i0 + (j + 1) + 1 := by omega
        rw [harith]
        simp
      · simpa using hne
    · refine ⟨0, Nat.succ_pos cs.length, ?_, by simpa using hc⟩
      simp only [strictCheck]
      rw [if_neg (by simp [List.isEmpty_iff, hc])]
      simp

/-- C3: in strict mandatory-key mode (the default `exclude_non_mandatory =
false`, with non-empty `mandatory_keys`), if any extracted candidate is
missing a mandatory key then selection fails with an error naming the
offending 1-based candidate index and its missing keys — regardless of
whether other candidates in the list contain every mandatory key (the
witness exhibits a fully valid first candidate). -/
theorem C3_strict_mode (α : Type) (e : YAMLExtractor)
    (safe_load : Str → YamlLoad α) (unmark : Str → Str) (text : Str)
    (hmk : e.mandatory_keys ≠ [])
    (hviol : ∃ c ∈ extract_yaml_segments safe_load unmark text false,
        missingKeysOf e.mandatory_keys c ≠ []) :
    ∃ j, ∃ hj : j < (extract_yaml_segments safe_load unmark text false).length,
      e.extract_from_text safe_load unmark text false
        = .error (.missingKeys (j + 1)
            (missingKeysOf e.mandatory_keys
              ((extract_yaml_segments safe_load unmark text false)[j])))
      ∧ missingKeysOf e.mandatory_keys
          ((extract_yaml_segments safe_load unmark text false)[j]) ≠ [] := by
  obtain ⟨j, hj, heq, hne⟩ :=
    strictCheck_finds α e.mandatory_keys
      (extract_yaml_segments safe_load unmark text false) 0 hviol
  refine ⟨j, hj, ?_, hne⟩
  unfold YAMLExtractor.extract_from_text
  rw [if_neg (by simp [List.isEmpty_iff, hmk])]
  rw [if_neg (by simp)]
  rw [heq]
  simp

/-- C3 witness: two fenced candidates, the first containing the mandatory
key `title` and the second not; strict mode raises naming segment 2 and
the missing key `title` even though the first candidate is fully valid. -/
theorem C3_witness :
    ∃ j, ∃ hj : j < (extract_yaml_segments demoLoad idUnmark C3text false).length,
      eC3.extract_from_text demoLoad idUnmark C3text false
        = .error (.missingKeys (j + 1)
            (missingKeysOf eC3.mandatory_keys
              ((extract_yaml_segments demoLoad idUnmark C3text false)[j])))
      ∧ missingKeysOf eC3.mandatory_keys
          ((extract_yaml_segments demoLoad idUnmark C3text false)[j]) ≠ [] :=
  C3_strict_mode Str eC3 demoLoad idUnmark C3text (by decide) (by decide)

end LgUtils

